import Mathlib

/-!
Verification of the orizonllm authentication layer (`src/orizon/auth/`).

The Python source is shallowly embedded: pure helpers become Lean functions,
Redis (the key-value store) becomes an explicit association list with
per-entry expiry times, network calls to the downstream LiteLLM gateway,
GitHub, and SMTP become oracle parameters holding the call's outcome, and
each FastAPI handler becomes a function from its inputs and oracle outcomes
to a structured result (response fields, resulting stores, effect trace).
Time is an explicit natural-number parameter (seconds).
-/

namespace Orizon

/-! ## Bytes and 32-bit words (for hashlib.sha256 as used by generate_user_id) -/

/-- Truncate to a 32-bit word. -/
def w32 (n : Nat) : Nat := n % 4294967296

/-- Right rotation of a 32-bit word. -/
def rotr32 (n x : Nat) : Nat := w32 ((x >>> n) ||| (x <<< (32 - n)))

/-- Bitwise complement within 32 bits. -/
def not32 (x : Nat) : Nat := 4294967295 ^^^ x

/-- The `count` bytes of `n`, big-endian. -/
def beBytes : Nat → Nat → List Nat
  | 0, _ => []
  | k + 1, n => beBytes k (n >>> 8) ++ [n % 256]

/-- Big-endian 32-bit words from a byte list (groups of 4). -/
def toWordsBE : List Nat → List Nat
  | a :: b :: c :: d :: rest =>
    ((a <<< 24) ||| (b <<< 16) ||| (c <<< 8) ||| d) :: toWordsBE rest
  | _ => []

/-- The SHA-256 round constants. -/
def sha256K : List Nat :=
  [1116352408, 1899447441, 3049323471, 3921009573, 961987163,
   1508970993, 2453635748, 2870763221, 3624381080, 310598401,
   607225278, 1426881987, 1925078388, 2162078206, 2614888103,
   3248222580, 3835390401, 4022224774, 264347078, 604807628,
   770255983, 1249150122, 1555081692, 1996064986, 2554220882,
   2821834349, 2952996808, 3210313671, 3336571891, 3584528711,
   113926993, 338241895, 666307205, 773529912, 1294757372,
   1396182291, 1695183700, 1986661051, 2177026350, 2456956037,
   2730485921, 2820302411, 3259730800, 3345764771, 3516065817,
   3600352804, 4094571909, 275423344, 430227734, 506948616,
   659060556, 883997877, 958139571, 1322822218, 1537002063,
   1747873779, 1955562222, 2024104815, 2227730452, 2361852424,
   2428436474, 2756734187, 3204031479, 3329325298]

/-- Working state of the SHA-256 compression function. -/
structure Sha256St where
  a : Nat
  b : Nat
  c : Nat
  d : Nat
  e : Nat
  f : Nat
  g : Nat
  h : Nat

/-- The SHA-256 initial hash value. -/
def sha256H0 : Sha256St :=
  ⟨1779033703, 3144134277, 1013904242, 2773480762,
   1359893119, 2600822924, 528734635, 1541459225⟩

/-- SHA-256 message padding: append 0x80, zero bytes, and the 64-bit
big-endian bit length, reaching a multiple of 64 bytes. -/
def padMsg (msg : List Nat) : List Nat :=
  let len := msg.length
  let z := (119 - len % 64) % 64
  msg ++ [128] ++ List.replicate z 0 ++ beBytes 8 (len * 8)

/-- Split into 64-byte chunks (fuel-based structural recursion; the fuel
`l.length` always suffices since every step consumes 64 bytes). -/
def chunksAux : Nat → List Nat → List (List Nat)
  | 0, _ => []
  | _, [] => []
  | fuel + 1, a :: rest => ((a :: rest).take 64) :: chunksAux fuel ((a :: rest).drop 64)

/-- Split into 64-byte chunks. -/
def chunks64 (l : List Nat) : List (List Nat) := chunksAux l.length l

/-- The 64-word SHA-256 message schedule of one block. -/
def msgSchedule (block : List Nat) : Array Nat :=
  let w0 := (toWordsBE block).toArray
  (List.range 48).foldl
    (fun w _ =>
      let i := w.size
      let x15 := w.getD (i - 15) 0
      let x2 := w.getD (i - 2) 0
      let s0 := rotr32 7 x15 ^^^ rotr32 18 x15 ^^^ (x15 >>> 3)
      let s1 := rotr32 17 x2 ^^^ rotr32 19 x2 ^^^ (x2 >>> 10)
      w.push (w32 (w.getD (i - 16) 0 + s0 + w.getD (i - 7) 0 + s1)))
    w0

/-- One round of the SHA-256 compression function. -/
def compressStep (st : Sha256St) (ki wi : Nat) : Sha256St :=
  let s1 := rotr32 6 st.e ^^^ rotr32 11 st.e ^^^ rotr32 25 st.e
  let ch := (st.e &&& st.f) ^^^ (not32 st.e &&& st.g)
  let temp1 := w32 (st.h + s1 + ch + ki + wi)
  let s0 := rotr32 2 st.a ^^^ rotr32 13 st.a ^^^ rotr32 22 st.a
  let maj := (st.a &&& st.b) ^^^ (st.a &&& st.c) ^^^ (st.b &&& st.c)
  let temp2 := w32 (s0 + maj)
  ⟨w32 (temp1 + temp2), st.a, st.b, st.c, w32 (st.d + temp1), st.e, st.f, st.g⟩

/-- Process one 64-byte block. -/
def compressBlock (st : Sha256St) (block : List Nat) : Sha256St :=
  let w := msgSchedule block
  let fin := (List.range 64).foldl
    (fun s i => compressStep s (sha256K.getD i 0) (w.getD i 0)) st
  ⟨w32 (st.a + fin.a), w32 (st.b + fin.b), w32 (st.c + fin.c), w32 (st.d + fin.d),
   w32 (st.e + fin.e), w32 (st.f + fin.f), w32 (st.g + fin.g), w32 (st.h + fin.h)⟩

/-- SHA-256 of a byte list, as 32 bytes. -/
def sha256Bytes (msg : List Nat) : List Nat :=
  let fin := (chunks64 (padMsg msg)).foldl compressBlock sha256H0
  beBytes 4 fin.a ++ beBytes 4 fin.b ++ beBytes 4 fin.c ++ beBytes 4 fin.d ++
  beBytes 4 fin.e ++ beBytes 4 fin.f ++ beBytes 4 fin.g ++ beBytes 4 fin.h

/-- A lowercase hexadecimal digit. -/
def hexDigit (n : Nat) : Char :=
  if n < 10 then Char.ofNat (48 + n) else Char.ofNat (87 + n)

/-- Two lowercase hex characters of one byte. -/
def byteToHex (b : Nat) : List Char := [hexDigit (b / 16), hexDigit (b % 16)]

/-- Lowercase hex string of a byte list (Python hexdigest). -/
def hexOfBytes (bs : List Nat) : String := String.mk (bs.map byteToHex).flatten

/-! ## Python str.lower (ASCII fragment) and UTF-8 encoding -/

/-- Lowercase one character (the ASCII fragment of Python str.lower). -/
def pyCharLower (c : Char) : Char :=
  if 65 ≤ c.toNat ∧ c.toNat ≤ 90 then Char.ofNat (c.toNat + 32) else c

/-- Lowercase a string character-wise (Python email.lower()). -/
def pyLower (s : String) : String := String.mk (s.data.map pyCharLower)

/-- UTF-8 encoding of one character. -/
def utf8Char (c : Char) : List Nat :=
  let n := c.toNat
  if n < 128 then [n]
  else if n < 2048 then [192 ||| (n >>> 6), 128 ||| (n &&& 63)]
  else if n < 65536 then
    [224 ||| (n >>> 12), 128 ||| ((n >>> 6) &&& 63), 128 ||| (n &&& 63)]
  else
    [240 ||| (n >>> 18), 128 ||| ((n >>> 12) &&& 63),
     128 ||| ((n >>> 6) &&& 63), 128 ||| (n &&& 63)]

/-- UTF-8 bytes of a string (Python str.encode()). -/
def utf8Encode (s : String) : List Nat := (s.data.map utf8Char).flatten

/-! ## generate_user_id (src/orizon/auth/utils.py) -/

/-- Function `generate_user_id` from utils.py:
`"orizon-" + sha256(email.lower().encode()).hexdigest()[:12]`. -/
def generate_user_id (email : String) : String :=
  "orizon-" ++ (hexOfBytes (sha256Bytes (utf8Encode (pyLower email)))).take 12

/-! ## Redis model

An association list from keys to values with an optional absolute expiry
time. An entry is live at time `t` when it has no expiry or its expiry is
still in the future; expired entries act exactly like absent ones. -/

/-- One stored value with its optional absolute expiry time. -/
structure RVal (α : Type) where
  val : α
  expiresAt : Option Nat
deriving Repr, DecidableEq

/-- The key-value store. -/
abbrev Redis (α : Type) := List (String × RVal α)

/-- Whether an entry is live at time `t`. -/
def liveAt (t : Nat) (e : RVal α) : Bool :=
  match e.expiresAt with
  | none => true
  | some x => decide (t < x)

/-- DEL: remove a key. -/
def rdel : Redis α → String → Redis α
  | [], _ => []
  | p :: rest, k => if p.1 = k then rdel rest k else p :: rdel rest k

/-- Raw lookup of a key's entry, live or not. -/
def rfind (st : Redis α) (k : String) : Option (RVal α) :=
  (st.find? (fun p => p.1 == k)).map (·.2)

/-- Lookup of a key's entry, respecting expiry. -/
def rgetEntry (t : Nat) (st : Redis α) (k : String) : Option (RVal α) :=
  match rfind st k with
  | some e => if liveAt t e then some e else none
  | none => none

/-- GET/HGETALL at time `t`. -/
def rget (t : Nat) (st : Redis α) (k : String) : Option α :=
  (rgetEntry t st k).map (·.val)

/-- SET/HSET (with SETEX when `ttl` is given): store a value, replacing any
previous entry under the key. -/
def rset (t : Nat) (st : Redis α) (k : String) (v : α) (ttl : Option Nat) : Redis α :=
  (k, ⟨v, ttl.map (fun s => t + s)⟩) :: rdel st k

/-- EXPIRE: set the expiry of a live key; no-op when the key is absent. -/
def rexpire (t : Nat) (st : Redis α) (k : String) (secs : Nat) : Redis α :=
  match rgetEntry t st k with
  | some e => (k, ⟨e.val, some (t + secs)⟩) :: rdel st k
  | none => st

/-- INCR: increment a counter, creating it at 1 (with no expiry) when the
key is absent or expired; an existing entry keeps its expiry. -/
def rincr (t : Nat) (st : Redis Nat) (k : String) : Nat × Redis Nat :=
  match rgetEntry t st k with
  | some e => (e.val + 1, (k, ⟨e.val + 1, e.expiresAt⟩) :: rdel st k)
  | none => (1, (k, ⟨1, none⟩) :: rdel st k)

/-- TTL: remaining seconds (-1 when no expiry, -2 when absent/expired). -/
def rttl (t : Nat) (st : Redis α) (k : String) : Int :=
  match rgetEntry t st k with
  | none => -2
  | some e =>
    match e.expiresAt with
    | none => -1
    | some x => (x : Int) - (t : Int)

/-! ### Store lemmas -/

theorem rfind_cons_self (k : String) (e : RVal α) (st : Redis α) :
    rfind ((k, e) :: st) k = some e := by
  simp [rfind, List.find?_cons_of_pos]

theorem rfind_cons_ne (p : String × RVal α) (st : Redis α) (k : String) (h : p.1 ≠ k) :
    rfind (p :: st) k = rfind st k := by
  unfold rfind
  rw [List.find?_cons_of_neg]
  simp [h]

theorem rfind_rdel (st : Redis α) (k : String) : rfind (rdel st k) k = none := by
  induction st with
  | nil => rfl
  | cons p rest ih =>
    by_cases h : p.1 = k
    · simpa [rdel, h] using ih
    · rw [show rdel (p :: rest) k = p :: rdel rest k by simp [rdel, h]]
      rw [rfind_cons_ne _ _ _ h]
      exact ih

theorem rdel_rdel (st : Redis α) (k : String) : rdel (rdel st k) k = rdel st k := by
  induction st with
  | nil => rfl
  | cons p rest ih =>
    by_cases h : p.1 = k
    · simpa [rdel, h] using ih
    · simp [rdel, h, ih]

theorem rgetEntry_rdel (t : Nat) (st : Redis α) (k : String) :
    rgetEntry t (rdel st k) k = none := by
  simp [rgetEntry, rfind_rdel]

theorem rget_rdel (t : Nat) (st : Redis α) (k : String) :
    rget t (rdel st k) k = none := by
  simp [rget, rgetEntry_rdel]

theorem rgetEntry_cons_self (t : Nat) (k : String) (e : RVal α) (st : Redis α) :
    rgetEntry t ((k, e) :: st) k = if liveAt t e then some e else none := by
  simp [rgetEntry, rfind_cons_self]

theorem rget_none_iff (t : Nat) (st : Redis α) (k : String) :
    rget t st k = none ↔ rgetEntry t st k = none := by
  cases h : rgetEntry t st k <;> simp [rget, h]

/-! ### Lowercasing lemmas -/

theorem toNat_ofNat_valid (n : Nat) (h : n < 55296) : (Char.ofNat n).toNat = n := by
  have hv : n.isValidChar := Or.inl h
  simp [Char.ofNat, hv, Char.ofNatAux, Char.toNat, UInt32.toNat]

theorem pyCharLower_idem (c : Char) : pyCharLower (pyCharLower c) = pyCharLower c := by
  unfold pyCharLower
  by_cases h : 65 ≤ c.toNat ∧ c.toNat ≤ 90
  · rw [if_pos h]
    have hc : c.toNat ≤ 90 := h.2
    have ht : (Char.ofNat (c.toNat + 32)).toNat = c.toNat + 32 :=
      toNat_ofNat_valid _ (by omega)
    rw [if_neg (by rw [ht]; omega)]
  · rw [if_neg h, if_neg h]

theorem pyLower_idem (s : String) : pyLower (pyLower s) = pyLower s := by
  unfold pyLower
  refine congrArg String.mk ?_
  show (s.data.map pyCharLower).map pyCharLower = s.data.map pyCharLower
  rw [List.map_map]
  exact List.map_congr_left (fun a _ => pyCharLower_idem a)

set_option maxRecDepth 4000 in
/-- Sanity check of the hash embedding against the FIPS 180-4 test vector. -/
theorem sha256_test_vector :
    hexOfBytes (sha256Bytes (utf8Encode "abc")) =
      "ba7816bf8f01cfea414140de5dae2223b00361a396177a9cb410ff61f20015ad" := by
  decide

set_option maxRecDepth 4000 in
/-- Sanity check of generate_user_id against the Python implementation. -/
theorem generate_user_id_concrete :
    generate_user_id "alice@example.com" = "orizon-ff8d9819fc0e" := by
  decide

/-- Claim C4: generate_user_id is a pure deterministic function of the email:
repeated calls agree, the id equals the id of the lowercased email, two
emails equal up to case collapse to the same id, and the id is the fixed
prefix "orizon-" followed by the first 12 hex characters of the SHA-256
digest of the lowercased email. -/
theorem c4_generate_user_id_deterministic (e e1 e2 : String)
    (h : pyLower e1 = pyLower e2) :
    generate_user_id e = generate_user_id e
    ∧ generate_user_id e = generate_user_id (pyLower e)
    ∧ generate_user_id e1 = generate_user_id e2
    ∧ generate_user_id e =
        "orizon-" ++ (hexOfBytes (sha256Bytes (utf8Encode (pyLower e)))).take 12 := by
  refine ⟨rfl, ?_, ?_, rfl⟩
  · unfold generate_user_id
    rw [pyLower_idem]
  · unfold generate_user_id
    rw [h]

theorem c4_generate_user_id_deterministic_witness :
    generate_user_id "Alice@Example.COM" = generate_user_id "alice@example.com" :=
  (c4_generate_user_id_deterministic "x" "Alice@Example.COM" "alice@example.com"
    (by decide)).2.2.1

/-! ## Magic-link token store (src/orizon/auth/tokens.py) -/

/-- The fields stored under a token key (`is_signup` is stored as the
string "1" or "0", as in the Python hash mapping). -/
structure StoredToken where
  email : String
  createdAt : Nat
  isSignupStr : String
  name : Option String
  company : Option String
deriving Repr, DecidableEq

/-- The token data handed back by verification (`is_signup` converted back
to a boolean). -/
structure VerifiedToken where
  email : String
  createdAt : Nat
  isSignup : Bool
  name : Option String
  company : Option String
deriving Repr, DecidableEq

def TOKEN_EXPIRY_MINUTES : Nat := 15

/-- The Redis key of a token ("orizon:magic:" followed by the token). -/
def magicKey (tok : String) : String := "orizon:magic:" ++ tok

/-- Function `create_magic_link_token`: store the token data (HSET) and set a
15-minute expiry; the freshly generated random token is the `tok`
parameter. Returns the token and the updated store. -/
def create_magic_link_token (t : Nat) (st : Redis StoredToken) (tok email : String)
    (name company : Option String) (is_signup : Bool) : String × Redis StoredToken :=
  let data : StoredToken :=
    { email := email, createdAt := t,
      isSignupStr := if is_signup then "1" else "0",
      name := name, company := company }
  let st1 := rset t st (magicKey tok) data none
  let st2 := rexpire t st1 (magicKey tok) (TOKEN_EXPIRY_MINUTES * 60)
  (tok, st2)

/-- Function `verify_magic_link_token`: HGETALL; absent (never issued, already
redeemed, or expired) yields `none` with the store unchanged; otherwise the
token is deleted (single-use) and its data returned. -/
def verify_magic_link_token (t : Nat) (st : Redis StoredToken) (tok : String) :
    Option VerifiedToken × Redis StoredToken :=
  let key := magicKey tok
  match rget t st key with
  | none => (none, st)
  | some d =>
    (some { email := d.email, createdAt := d.createdAt,
            isSignup := d.isSignupStr == "1", name := d.name, company := d.company },
     rdel st key)

theorem create_magic_link_token_store (t : Nat) (st : Redis StoredToken)
    (tok email : String) (name company : Option String) (b : Bool) :
    (create_magic_link_token t st tok email name company b).2 =
      (magicKey tok,
       ⟨⟨email, t, if b then "1" else "0", name, company⟩,
        some (t + TOKEN_EXPIRY_MINUTES * 60)⟩) :: rdel st (magicKey tok) := by
  unfold create_magic_link_token rset rexpire
  dsimp only
  rw [rgetEntry_cons_self]
  simp [liveAt, rdel, rdel_rdel]

/-- Claim C3: every issued token redeems exactly once: within its TTL the
first redeem returns the stored metadata and deletes the token; a second
redeem, an expired token, and a never-issued token all yield the same
uniform not-found result with the store unchanged. -/
theorem c3_token_redeem_exactly_once
    (t t2 t3 t4 : Nat) (st st' st1 : Redis StoredToken) (tok tok2 email : String)
    (name company : Option String) (b : Bool)
    (hst1 : st1 = (create_magic_link_token t st tok email name company b).2)
    (hwin : t2 < t + TOKEN_EXPIRY_MINUTES * 60)
    (hexp : t + TOKEN_EXPIRY_MINUTES * 60 ≤ t3)
    (habsent : rget t4 st' (magicKey tok2) = none) :
    (create_magic_link_token t st tok email name company b).1 = tok
    ∧ verify_magic_link_token t2 st1 tok =
        (some ⟨email, t, b, name, company⟩, rdel st1 (magicKey tok))
    ∧ (∀ u, verify_magic_link_token u (rdel st1 (magicKey tok)) tok =
        (none, rdel st1 (magicKey tok)))
    ∧ verify_magic_link_token t3 st1 tok = (none, st1)
    ∧ verify_magic_link_token t4 st' tok2 = (none, st') := by
  rw [create_magic_link_token_store] at hst1
  refine ⟨rfl, ?_, ?_, ?_, ?_⟩
  · unfold verify_magic_link_token
    dsimp only
    rw [hst1]
    rw [show rget t2 ((magicKey tok,
          ⟨⟨email, t, if b then "1" else "0", name, company⟩,
           some (t + TOKEN_EXPIRY_MINUTES * 60)⟩) :: rdel st (magicKey tok)) (magicKey tok)
        = some ⟨email, t, if b then "1" else "0", name, company⟩ by
      unfold rget
      rw [rgetEntry_cons_self]
      simp [liveAt, hwin]]
    cases b <;> rfl
  · intro u
    unfold verify_magic_link_token
    dsimp only
    rw [rget_rdel]
  · unfold verify_magic_link_token
    dsimp only
    rw [hst1]
    rw [show rget t3 ((magicKey tok,
          ⟨⟨email, t, if b then "1" else "0", name, company⟩,
           some (t + TOKEN_EXPIRY_MINUTES * 60)⟩) :: rdel st (magicKey tok)) (magicKey tok)
        = none by
      unfold rget
      rw [rgetEntry_cons_self]
      simp [liveAt]
      omega]
  · unfold verify_magic_link_token
    dsimp only
    rw [habsent]

theorem c3_token_redeem_exactly_once_witness :
    verify_magic_link_token 1 (create_magic_link_token 0 [] "tk" "a@b" none none true).2 "tk"
      = (some ⟨"a@b", 0, true, none, none⟩,
         rdel (create_magic_link_token 0 [] "tk" "a@b" none none true).2 (magicKey "tk")) :=
  (c3_token_redeem_exactly_once 0 1 900 0 [] [] _ "tk" "x" "a@b" none none true
    rfl (by decide) (by decide) (by decide)).2.1

/-! ## Rate limiter (src/orizon/auth/ratelimit.py) -/

/-- Lookup `RATE_LIMITS.get(action, RATE_LIMITS["default"])`: per-action
(max_requests, window_seconds). -/
def RATE_LIMITS (action : String) : Nat × Nat :=
  if action = "login" then (5, 60)
  else if action = "signup" then (3, 300)
  else if action = "magic_link" then (3, 60)
  else if action = "oauth" then (10, 60)
  else (30, 60)

/-- The counter key `"ratelimit:{action}:{client_id}"`. -/
def rlKey (action clientId : String) : String :=
  "ratelimit:" ++ action ++ ":" ++ clientId

/-- Function `check_rate_limit`: INCR the counter, set the window expiry when this
was the first request, and return (allowed, remaining, reset_seconds) with
the updated store. -/
def check_rate_limit (t : Nat) (st : Redis Nat) (action clientId : String) :
    (Bool × Nat × Nat) × Redis Nat :=
  let mw := RATE_LIMITS action
  let key := rlKey action clientId
  let cr := rincr t st key
  let st2 := if cr.1 = 1 then rexpire t cr.2 key mw.2 else cr.2
  let resetSeconds := (max (rttl t st2 key) 0).toNat
  ((decide (cr.1 ≤ mw.1), mw.1 - cr.1, resetSeconds), st2)

/-- Function `rate_limit`: consult `check_rate_limit` and turn a disallowed result
into a 429 (modelled as `some retry_after`). -/
def rate_limit (t : Nat) (st : Redis Nat) (action clientId : String) :
    Option Nat × Redis Nat :=
  let r := check_rate_limit t st action clientId
  (if r.1.1 then none else some r.1.2.2, r.2)

theorem RATE_LIMITS_max_pos (action : String) : 1 ≤ (RATE_LIMITS action).1 := by
  unfold RATE_LIMITS
  repeat' split
  all_goals decide

theorem RATE_LIMITS_window_pos (action : String) : 0 < (RATE_LIMITS action).2 := by
  unfold RATE_LIMITS
  repeat' split
  all_goals decide

/-- Claim C5: the limiter is a fixed-window counter with the configured
per-action limits: the first check in a window sets the count to 1 with TTL
equal to the window, each later check within the window increments the
count keeping the window expiry, the check is allowed iff the
post-increment count is at most the maximum (so a disallowed check still
increments), reset_seconds is the key's remaining TTL, and once the window
expiry has passed the key reads as absent so the next check starts a fresh
window at count 1. -/
theorem c5_rate_limiter_fixed_window
    (t t' : Nat) (st : Redis Nat) (action clientId : String) (n e : Nat) :
    RATE_LIMITS "login" = (5, 60) ∧ RATE_LIMITS "signup" = (3, 300)
    ∧ RATE_LIMITS "magic_link" = (3, 60) ∧ RATE_LIMITS "oauth" = (10, 60)
    ∧ RATE_LIMITS "default" = (30, 60)
    ∧ (rget t st (rlKey action clientId) = none →
        check_rate_limit t st action clientId =
          ((true, (RATE_LIMITS action).1 - 1, (RATE_LIMITS action).2),
           (rlKey action clientId, ⟨1, some (t + (RATE_LIMITS action).2)⟩)
             :: rdel st (rlKey action clientId)))
    ∧ (rfind st (rlKey action clientId) = some ⟨n + 1, some e⟩ → t' < e →
        check_rate_limit t' st action clientId =
          ((decide (n + 2 ≤ (RATE_LIMITS action).1),
            (RATE_LIMITS action).1 - (n + 2), e - t'),
           (rlKey action clientId, ⟨n + 2, some e⟩)
             :: rdel st (rlKey action clientId)))
    ∧ (rfind st (rlKey action clientId) = some ⟨n, some e⟩ → e ≤ t' →
        rget t' st (rlKey action clientId) = none) := by
  refine ⟨rfl, rfl, rfl, rfl, rfl, ?_, ?_, ?_⟩
  · intro h
    have he : rgetEntry t st (rlKey action clientId) = none := (rget_none_iff _ _ _).mp h
    have hw : 0 < (RATE_LIMITS action).2 := RATE_LIMITS_window_pos action
    have hm : 1 ≤ (RATE_LIMITS action).1 := RATE_LIMITS_max_pos action
    unfold check_rate_limit rincr
    dsimp only
    rw [he]
    dsimp only
    rw [if_pos rfl]
    unfold rexpire
    rw [rgetEntry_cons_self]
    simp only [liveAt, ite_true]
    rw [show rdel ((rlKey action clientId, (⟨1, none⟩ : RVal Nat))
          :: rdel st (rlKey action clientId)) (rlKey action clientId)
        = rdel st (rlKey action clientId) by
      simp [rdel, rdel_rdel]]
    unfold rttl
    rw [rgetEntry_cons_self]
    simp only [liveAt]
    rw [if_pos (by simp [hw])]
    simp only [Prod.mk.injEq]
    exact ⟨⟨by simp [hm], trivial, by omega⟩, trivial⟩
  · intro h ht
    have he : rgetEntry t' st (rlKey action clientId) = some ⟨n + 1, some e⟩ := by
      unfold rgetEntry
      rw [h]
      simp [liveAt, ht]
    unfold check_rate_limit rincr
    dsimp only
    rw [he]
    dsimp only
    rw [if_neg (by omega)]
    unfold rttl
    rw [rgetEntry_cons_self]
    simp only [liveAt]
    rw [if_pos (by simp [ht])]
    simp only [Prod.mk.injEq]
    exact ⟨⟨trivial, trivial, by omega⟩, trivial⟩
  · intro h ht
    unfold rget rgetEntry
    rw [h]
    simp [liveAt]
    omega

theorem c5_rate_limiter_fixed_window_witness :
    check_rate_limit 0 [] "login" "1.2.3.4" =
      ((true, 4, 60), [(rlKey "login" "1.2.3.4", ⟨1, some 60⟩)]) := by
  have h := (c5_rate_limiter_fixed_window 0 0 [] "login" "1.2.3.4" 0 0).2.2.2.2.2.1
    (by decide)
  simpa [rdel] using h

/-! ## Downstream gateway data and session store
(src/orizon/auth/utils.py, src/orizon/auth/sessions.py) -/

/-- The slice of LiteLLM user data the handlers read: `user_data.get("user_id")`
and `user_data.get("user_info", {}).get("user_id")`. -/
structure UserData where
  userId : Option String
  userInfoUserId : Option String
deriving Repr, DecidableEq

/-- The fields of a stored session record. -/
structure SessionData where
  email : String
  userId : Option String
  virtualKey : String
  createdAt : Nat
  name : Option String
deriving Repr, DecidableEq

def SESSION_EXPIRY_HOURS : Nat := 24

/-- The Redis key of a session ("orizon:session:" followed by the token). -/
def sessionKey (tok : String) : String := "orizon:session:" ++ tok

/-- Function `create_session`: store the session record (HSET) with a 24-hour expiry;
the freshly generated random session token is the `sessionTok` parameter. -/
def create_session (t : Nat) (st : Redis SessionData) (sessionTok email : String)
    (userId : Option String) (virtualKey : String) (name : Option String) :
    String × Redis SessionData :=
  let data : SessionData :=
    { email := email, userId := userId, virtualKey := virtualKey,
      createdAt := t, name := name }
  let key := sessionKey sessionTok
  let st1 := rset t st key data none
  let st2 := rexpire t st1 key (SESSION_EXPIRY_HOURS * 3600)
  (sessionTok, st2)

/-! ## Verify endpoint (src/orizon/auth/routes.py, verify_token) -/

/-- The observable outcome of the verify endpoint: HTTP status, the body
fields of TokenVerifyResponse / HTTPException detail, and whether a session
was created and its cookie set. -/
structure VerifyOut where
  status : Nat
  success : Bool
  email : Option String
  virtualKey : Option String
  message : String
  tokSt : Redis StoredToken
  sessSt : Redis SessionData
  sessionCreated : Bool
  cookieSet : Bool
deriving Repr, DecidableEq

/-- The `verify_token` route handler. `resolve` is the outcome of the
`get_or_create_user_key` gateway call; `sessOk` is whether the session-store
write succeeds (`create_session` raises on store failure, caught by the
route's generic handler as a 500). -/
def verify_token (t : Nat) (tokSt : Redis StoredToken) (tok : String)
    (resolve : Option UserData × Option String) (sessOk : Bool)
    (sessionTok : String) (sessSt : Redis SessionData) : VerifyOut :=
  match verify_magic_link_token t tokSt tok with
  | (none, tokSt') =>
    { status := 400, success := false, email := none, virtualKey := none,
      message := "Invalid or expired magic link",
      tokSt := tokSt', sessSt := sessSt, sessionCreated := false, cookieSet := false }
  | (some td, tokSt') =>
    match resolve with
    | (some ud, some vk) =>
      if sessOk then
        let userId := match ud.userId with
          | some u => some u
          | none => ud.userInfoUserId
        let sessSt' := (create_session t sessSt sessionTok td.email userId vk td.name).2
        { status := 200, success := true, email := some td.email,
          virtualKey := some vk, message := "Successfully authenticated",
          tokSt := tokSt', sessSt := sessSt', sessionCreated := true, cookieSet := true }
      else
        { status := 500, success := false, email := none, virtualKey := none,
          message := "Verification failed. Please try again.",
          tokSt := tokSt', sessSt := sessSt, sessionCreated := false, cookieSet := false }
    | _ =>
      { status := 500, success := false, email := none, virtualKey := none,
        message := "Failed to create session",
        tokSt := tokSt', sessSt := sessSt, sessionCreated := false, cookieSet := false }

/-- Claim C10: token redemption is not atomic with session establishment:
when the token is live but a later step fails (no user data, no virtual
key, or a failing session-store write), the endpoint returns a 500 with no
session, yet the token is already consumed, so any retry with the same
token gets the 400 "Invalid or expired magic link" and no session. -/
theorem c10_verify_consumes_token_on_failure
    (t u : Nat) (tokSt : Redis StoredToken) (sessSt sessSt2 : Redis SessionData)
    (tok sessionTok sessionTok2 : String) (d : StoredToken)
    (resolve resolve2 : Option UserData × Option String) (sessOk ok2 : Bool)
    (hlive : rget t tokSt (magicKey tok) = some d)
    (hfail : resolve.1 = none ∨ resolve.2 = none ∨ sessOk = false) :
    (verify_token t tokSt tok resolve sessOk sessionTok sessSt).status = 500
    ∧ (verify_token t tokSt tok resolve sessOk sessionTok sessSt).sessionCreated = false
    ∧ (verify_token t tokSt tok resolve sessOk sessionTok sessSt).cookieSet = false
    ∧ (verify_token t tokSt tok resolve sessOk sessionTok sessSt).sessSt = sessSt
    ∧ (verify_token t tokSt tok resolve sessOk sessionTok sessSt).tokSt
        = rdel tokSt (magicKey tok)
    ∧ (verify_token u (rdel tokSt (magicKey tok)) tok resolve2 ok2 sessionTok2 sessSt2).status
        = 400
    ∧ (verify_token u (rdel tokSt (magicKey tok)) tok resolve2 ok2 sessionTok2 sessSt2).message
        = "Invalid or expired magic link"
    ∧ (verify_token u (rdel tokSt (magicKey tok)) tok resolve2 ok2 sessionTok2 sessSt2).sessionCreated
        = false := by
  have hv : verify_magic_link_token t tokSt tok =
      (some ⟨d.email, d.createdAt, d.isSignupStr == "1", d.name, d.company⟩,
       rdel tokSt (magicKey tok)) := by
    unfold verify_magic_link_token
    dsimp only
    rw [hlive]
  have hv2 : verify_magic_link_token u (rdel tokSt (magicKey tok)) tok =
      (none, rdel tokSt (magicKey tok)) := by
    unfold verify_magic_link_token
    dsimp only
    rw [rget_rdel]
  obtain ⟨r1, r2⟩ := resolve
  have h500 : (verify_token t tokSt tok (r1, r2) sessOk sessionTok sessSt).status = 500
      ∧ (verify_token t tokSt tok (r1, r2) sessOk sessionTok sessSt).sessionCreated = false
      ∧ (verify_token t tokSt tok (r1, r2) sessOk sessionTok sessSt).cookieSet = false
      ∧ (verify_token t tokSt tok (r1, r2) sessOk sessionTok sessSt).sessSt = sessSt
      ∧ (verify_token t tokSt tok (r1, r2) sessOk sessionTok sessSt).tokSt
          = rdel tokSt (magicKey tok) := by
    cases r1 with
    | none =>
      cases r2 <;> simp [verify_token, hv]
    | some ud =>
      cases r2 with
      | none => simp [verify_token, hv]
      | some vk =>
        have hso : sessOk = false := by
          rcases hfail with h | h | h
          · exact absurd h (by simp)
          · exact absurd h (by simp)
          · exact h
        simp [verify_token, hv, hso]
  refine ⟨h500.1, h500.2.1, h500.2.2.1, h500.2.2.2.1, h500.2.2.2.2, ?_, ?_, ?_⟩
  all_goals simp [verify_token, hv2]

theorem c10_verify_consumes_token_on_failure_witness :
    (verify_token 0 (create_magic_link_token 0 [] "tk" "a@b" none none false).2 "tk"
        (none, none) true "s1" []).status = 500
    ∧ (verify_token 1
        (verify_token 0 (create_magic_link_token 0 [] "tk" "a@b" none none false).2 "tk"
          (none, none) true "s1" []).tokSt "tk" (none, none) true "s2" []).status = 400 := by
  have h := c10_verify_consumes_token_on_failure 0 1
    (create_magic_link_token 0 [] "tk" "a@b" none none false).2 [] []
    "tk" "s1" "s2" ⟨"a@b", 0, "0", none, none⟩ (none, none) (none, none) true true
    (by decide) (Or.inl rfl)
  exact ⟨h.1, by rw [show (verify_token 0 (create_magic_link_token 0 [] "tk" "a@b" none
    none false).2 "tk" (none, none) true "s1" []).tokSt
      = rdel (create_magic_link_token 0 [] "tk" "a@b" none none false).2 (magicKey "tk")
    from h.2.2.2.2.1]; exact h.2.2.2.2.2.1⟩

/-! ## Signup and login endpoints (src/orizon/auth/routes.py) -/

/-- The externally visible side effects a handler performs, in order.
`rlCheck` would be a rate-limiter consultation (`rate_limit` /
`check_rate_limit`); `resolveUser` is the `get_or_create_user_key` gateway
call, which may create the account; `tokenIssue` is magic-link token
issuance; `emailSend` is an SMTP send attempt. -/
inductive Eff where
  | rlCheck (action : String)
  | resolveUser
  | tokenIssue
  | emailSend
deriving Repr, DecidableEq

/-- The AuthResponse body together with the HTTP status. -/
structure AuthReply where
  status : Nat
  success : Bool
  message : String
  userId : Option String
deriving Repr, DecidableEq

/-- A handler result: reply, ordered effect trace, resulting token store. -/
structure HandlerOut where
  reply : AuthReply
  effects : List Eff
  tokSt : Redis StoredToken
deriving Repr, DecidableEq

/-- The `login` route handler. `userData` is the outcome of the
`get_user(generate_user_id(email))` gateway lookup; `sendOk` is the SMTP
outcome (`send_magic_link_email` returns a boolean and never raises). The
handler always issues a token, sends the email only when the user exists,
and replies 200 with the same body either way. -/
def login (t : Nat) (tokSt : Redis StoredToken) (tok email : String)
    (userData : Option UserData) (sendOk : Bool) : HandlerOut :=
  let tokSt' := (create_magic_link_token t tokSt tok email none none false).2
  { reply := { status := 200, success := true,
               message := "Check your email for the magic link", userId := none },
    effects := Eff.tokenIssue :: (if userData.isSome then [Eff.emailSend] else []),
    tokSt := tokSt' }

/-- The `signup` route handler. `resolve` is the outcome of the
`get_or_create_user_key(email)` gateway call (user data, virtual key);
a missing user data is a 500, otherwise a signup token is issued, the email
sent (best effort), and the reply carries the deterministic user id. -/
def signup (t : Nat) (tokSt : Redis StoredToken) (tok email sname : String)
    (company : Option String) (resolve : Option UserData × Option String)
    (sendOk : Bool) : HandlerOut :=
  match resolve.1 with
  | none =>
    { reply := { status := 500, success := false,
                 message := "Failed to create user account", userId := none },
      effects := [Eff.resolveUser],
      tokSt := tokSt }
  | some _ =>
    let tokSt' := (create_magic_link_token t tokSt tok email (some sname) company true).2
    { reply := { status := 200, success := true,
                 message := "Check your email for the magic link",
                 userId := some (generate_user_id email) },
      effects := [Eff.resolveUser, Eff.tokenIssue, Eff.emailSend],
      tokSt := tokSt' }

/-- Claim C1 (the code violates it): neither sign-up nor login consults the
rate limiter at all — login always issues a magic-link token and signup
always performs the account resolve/create call, with no `rlCheck` effect
anywhere in either trace, for every action name and every input. -/
theorem c1_handlers_never_consult_rate_limiter
    (t : Nat) (tokSt : Redis StoredToken) (tok email sname : String)
    (company : Option String) (userData : Option UserData)
    (resolve : Option UserData × Option String) (sendOk : Bool) (action : String) :
    Eff.rlCheck action ∉ (login t tokSt tok email userData sendOk).effects
    ∧ Eff.tokenIssue ∈ (login t tokSt tok email userData sendOk).effects
    ∧ Eff.rlCheck action ∉ (signup t tokSt tok email sname company resolve sendOk).effects
    ∧ Eff.resolveUser ∈ (signup t tokSt tok email sname company resolve sendOk).effects := by
  refine ⟨?_, ?_, ?_, ?_⟩
  · cases userData <;> simp [login]
  · simp [login]
  · rcases resolve with ⟨r1, r2⟩
    cases r1 <;> simp [signup]
  · rcases resolve with ⟨r1, r2⟩
    cases r1 <;> simp [signup]

/-- Claim C6: the login reply (status and full body) is identical whether
or not the account exists in the downstream gateway — same 200 status, the
same message, and no account identifier — for every store, token, email and
SMTP outcome. -/
theorem c6_login_enumeration_resistant
    (t : Nat) (tokSt : Redis StoredToken) (tok email : String)
    (ud : UserData) (sendOk sendOk' : Bool) :
    (login t tokSt tok email (some ud) sendOk).reply
        = (login t tokSt tok email none sendOk').reply
    ∧ (login t tokSt tok email (some ud) sendOk).reply.status = 200
    ∧ (login t tokSt tok email (some ud) sendOk).reply.message
        = "Check your email for the magic link"
    ∧ (login t tokSt tok email (some ud) sendOk).reply.userId = none := by
  exact ⟨rfl, rfl, rfl, rfl⟩

/-! ## Identity middleware (src/orizon/auth/middleware.py) -/

/-- An inbound request: URL path and headers. -/
structure Req where
  path : String
  headers : List (String × String)
deriving Repr, DecidableEq

/-- Read a header value. -/
def headerGet (req : Req) (k : String) : Option String :=
  (req.headers.find? (fun p => p.1 == k)).map (·.2)

/-- Set a header value, replacing any existing one (MutableHeaders). -/
def headerSet (req : Req) (k v : String) : Req :=
  { req with headers := (k, v) :: req.headers.filter (fun p => p.1 != k) }

/-- Function `get_user_email`: the oauth2-proxy email header, falling back to the
simplified nginx header. -/
def get_user_email (req : Req) : Option String :=
  match headerGet req "X-Auth-Request-Email" with
  | some e => some e
  | none => headerGet req "X-Email"

/-- The middleware's allow-list of paths that skip authentication. -/
def SKIP_AUTH_PATHS : List String :=
  ["/health", "/v1/health", "/docs", "/openapi.json", "/redoc"]

/-- Test `any(request.url.path.startswith(p) for p in SKIP_AUTH_PATHS)`. -/
def skipAuth (path : String) : Bool :=
  SKIP_AUTH_PATHS.any (fun p => p.isPrefixOf path)

/-- The outcome of the `get_or_create_user_key` call inside the middleware:
an exception, or a pair of optional user data and virtual key. -/
abbrev ResolveOutcome := Except Unit (Option UserData × Option String)

/-- The resolver failed to produce a credential: it raised, or returned no
virtual key. -/
def resolveFailed (r : ResolveOutcome) : Prop :=
  match r with
  | .error _ => True
  | .ok (_, none) => True
  | .ok (_, some _) => False

/-- Method `OrizonAuthMiddleware.dispatch`, as the transformation applied to the
request before it is handed to `call_next`: on a skip path or without an
identity header the request passes through unchanged; with an identity
header the Authorization header is injected only when a virtual key was
obtained; a resolver exception or a missing key leaves the request
unmodified. -/
def dispatchForward (req : Req) (resolver : ResolveOutcome) : Req :=
  if skipAuth req.path then req
  else
    match get_user_email req with
    | none => req
    | some _ =>
      match resolver with
      | .error _ => req
      | .ok (_, none) => req
      | .ok (_, some vk) => headerSet req "Authorization" ("Bearer " ++ vk)

/-- The full dispatch: the response is whatever `call_next` returns on the
forwarded request; the middleware itself never replaces it with an error
response. -/
def dispatch (req : Req) (resolver : ResolveOutcome) (next : Req → α) : α :=
  next (dispatchForward req resolver)

/-- Claim C7: with a trusted identity email header present and a failing
resolver (exception or no credential), the middleware forwards the request
unmodified — no Authorization-equivalent header is injected — and its
response is exactly the next handler's response on the original request,
so no 5xx originates from the middleware. -/
theorem c7_middleware_fail_open
    (req : Req) (e : String) (resolver : ResolveOutcome)
    (hmail : get_user_email req = some e)
    (hfail : resolveFailed resolver) :
    dispatchForward req resolver = req
    ∧ ∀ (α : Type) (next : Req → α), dispatch req resolver next = next req := by
  have hfwd : dispatchForward req resolver = req := by
    unfold dispatchForward
    by_cases hs : skipAuth req.path
    · rw [if_pos hs]
    · rw [if_neg hs, hmail]
      match resolver with
      | .error _ => rfl
      | .ok (_, none) => rfl
      | .ok (_, some vk) => exact absurd hfail (by simp [resolveFailed])
  exact ⟨hfwd, fun α next => by unfold dispatch; rw [hfwd]⟩

theorem c7_middleware_fail_open_witness :
    dispatchForward ⟨"/v1/chat/completions", [("X-Email", "u@corp")]⟩ (.ok (none, none))
      = ⟨"/v1/chat/completions", [("X-Email", "u@corp")]⟩ :=
  (c7_middleware_fail_open ⟨"/v1/chat/completions", [("X-Email", "u@corp")]⟩ "u@corp"
    (.ok (none, none)) (by decide) trivial).1

/-! ## GitHub OAuth (src/orizon/auth/oauth.py and the routes) -/

/-- One entry of the GitHub verified-emails endpoint. -/
structure EmailInfo where
  email : String
  primary : Bool
  verified : Bool
deriving Repr, DecidableEq

/-- The slice of the GitHub profile the flow reads. -/
structure Profile where
  email : Option String
  name : Option String
  login : String
  id : Nat
  avatarUrl : Option String
deriving Repr, DecidableEq

/-- The dict returned by `complete_github_auth` on success. -/
structure GithubUser where
  email : String
  name : String
  githubId : String
  githubLogin : String
  avatarUrl : Option String
deriving Repr, DecidableEq

/-- The selection loop of `get_github_primary_email` over a 200-response
email list: first primary-and-verified entry, else first verified entry,
else none. -/
def get_github_primary_email (emails : List EmailInfo) : Option String :=
  match emails.find? (fun i => i.primary && i.verified) with
  | some i => some i.email
  | none =>
    match emails.find? (fun i => i.verified) with
    | some i => some i.email
    | none => none

/-- The user dict built at the end of `complete_github_auth`
(`name or login`, stringified id). -/
def githubUserOf (p : Profile) (email : String) : GithubUser :=
  { email := email,
    name := match p.name with | some n => n | none => p.login,
    githubId := toString p.id,
    githubLogin := p.login,
    avatarUrl := p.avatarUrl }

/-- Function `complete_github_auth`: token exchange, profile fetch, then email
resolution — the profile's public email, else the verified-emails endpoint
(`emailsResp` is `none` when that call fails); no email fails the flow. -/
def complete_github_auth (tokenResp : Option String) (profileResp : Option Profile)
    (emailsResp : Option (List EmailInfo)) : Option GithubUser :=
  match tokenResp with
  | none => none
  | some _ =>
    match profileResp with
    | none => none
    | some p =>
      let email := match p.email with
        | some e => some e
        | none =>
          match emailsResp with
          | none => none
          | some l => get_github_primary_email l
      match email with
      | none => none
      | some e => some (githubUserOf p e)

def OAUTH_STATE_EXPIRY_SECONDS : Nat := 600

/-- The Redis key of an OAuth state ("orizon:oauth_state:" + state). -/
def oauthStateKey (s : String) : String := "orizon:oauth_state:" ++ s

/-- Function `store_oauth_state` from oauth.py: SETEX with the 10-minute expiry.
(Defined by the module but never called by the routes.) -/
def store_oauth_state (t : Nat) (kv : Redis String) (s : String) : Bool × Redis String :=
  (true, rset t kv (oauthStateKey s) "1" (some OAUTH_STATE_EXPIRY_SECONDS))

/-- Function `verify_oauth_state` from oauth.py: atomic DEL-and-check.
(Defined by the module but never called by the routes.) -/
def verify_oauth_state (t : Nat) (kv : Redis String) (s : String) : Bool × Redis String :=
  ((rget t kv (oauthStateKey s)).isSome, rdel kv (oauthStateKey s))

/-- Result of the `github_auth` route: the in-process `_oauth_states` map
(modelled as its key list), the oauth-state region of the key-value store,
and the HTTP status. -/
structure GithubAuthOut where
  states : List String
  kv : Redis String
  status : Nat
deriving Repr, DecidableEq

/-- The `github_auth` route: `_oauth_states[state] = True` on the module's
in-process dict, then a 302 redirect to the provider; the key-value store
is not touched. -/
def github_auth (state : String) (states : List String) (kv : Redis String) :
    GithubAuthOut :=
  { states := if states.contains state then states else state :: states,
    kv := kv,
    status := 302 }

/-- Result of the `github_callback` route. `exchanged` records whether
`complete_github_auth` (the token exchange) was invoked. -/
structure CallbackOut where
  status : Nat
  detail : String
  states : List String
  kv : Redis String
  exchanged : Bool
  sessionCreated : Bool
  cookieSet : Bool
  location : Option String
  sessSt : Redis SessionData
deriving Repr, DecidableEq

/-- The `github_callback` route: provider error → 400; missing code or
state → 400; state not in the in-process `_oauth_states` map → 400;
otherwise the state is deleted from the map (single use) and the flow
proceeds through token exchange (`ghUser` is the outcome of
`complete_github_auth`), account resolution (`resolve`), and session
creation with a cookie and a redirect to /profile. The key-value store is
never consulted. -/
def github_callback (code stateParam error : Option String) (states : List String)
    (kv : Redis String) (ghUser : Option GithubUser)
    (resolve : Option UserData × Option String) (t : Nat) (sessionTok : String)
    (sessSt : Redis SessionData) : CallbackOut :=
  match error with
  | some e =>
    { status := 400, detail := "GitHub authorization failed: " ++ e,
      states := states, kv := kv, exchanged := false, sessionCreated := false,
      cookieSet := false, location := none, sessSt := sessSt }
  | none =>
    match code, stateParam with
    | some _, some s =>
      if states.contains s then
        let states' := states.erase s
        match ghUser with
        | none =>
          { status := 500, detail := "Failed to authenticate with GitHub",
            states := states', kv := kv, exchanged := true, sessionCreated := false,
            cookieSet := false, location := none, sessSt := sessSt }
        | some gu =>
          match resolve with
          | (some ud, some vk) =>
            let userId := match ud.userId with
              | some x => some x
              | none => ud.userInfoUserId
            let sessSt' :=
              (create_session t sessSt sessionTok gu.email userId vk (some gu.name)).2
            { status := 302, detail := "", states := states', kv := kv,
              exchanged := true, sessionCreated := true, cookieSet := true,
              location := some "/profile", sessSt := sessSt' }
          | _ =>
            { status := 500, detail := "Failed to create user account",
              states := states', kv := kv, exchanged := true, sessionCreated := false,
              cookieSet := false, location := none, sessSt := sessSt }
      else
        { status := 400, detail := "Invalid OAuth state", states := states, kv := kv,
          exchanged := false, sessionCreated := false, cookieSet := false,
          location := none, sessSt := sessSt }
    | _, _ =>
      { status := 400, detail := "Missing authorization code or state",
        states := states, kv := kv, exchanged := false, sessionCreated := false,
        cookieSet := false, location := none, sessSt := sessSt }

/-- Claim C2 is false of the code: issuing the authorization redirect for
state "s0" leaves the key-value store empty — the state is not written to
the store, only to the in-process `_oauth_states` map. -/
theorem c2_oauth_state_in_store_counterexample :
    (github_auth "s0" [] []).states = ["s0"]
    ∧ (github_auth "s0" [] []).kv = []
    ∧ rget 0 (github_auth "s0" [] []).kv (oauthStateKey "s0") = none := by
  decide

/-- Claim C2 as amended: OAuth CSRF state is held by an in-process map in
the routes module, not by the key-value store: the redirect issuance
inserts the state into the map and leaves the store untouched, the callback
consumes the state from the map (single-use deletion) and leaves the store
untouched, while the Redis-backed `store_oauth_state`/`verify_oauth_state`
helpers with the 10-minute TTL exist unused: their semantics is a SETEX
with 600-second expiry and an atomic delete-and-check. -/
theorem c2_oauth_state_in_process_map
    (state s code sessionTok : String) (states : List String) (kv : Redis String)
    (ghUser : Option GithubUser) (resolve : Option UserData × Option String)
    (t t' : Nat) (sessSt : Redis SessionData)
    (hmem : states.contains s = true)
    (hfresh : t' < t + OAUTH_STATE_EXPIRY_SECONDS) :
    (github_auth state states kv).kv = kv
    ∧ (github_auth state states kv).states.contains state = true
    ∧ (github_callback (some code) (some s) none states kv ghUser resolve t
        sessionTok sessSt).states = states.erase s
    ∧ (github_callback (some code) (some s) none states kv ghUser resolve t
        sessionTok sessSt).kv = kv
    ∧ store_oauth_state t kv s =
        (true, rset t kv (oauthStateKey s) "1" (some OAUTH_STATE_EXPIRY_SECONDS))
    ∧ rget t' (store_oauth_state t kv s).2 (oauthStateKey s) = some "1"
    ∧ verify_oauth_state t' (store_oauth_state t kv s).2 s =
        (true, rdel (store_oauth_state t kv s).2 (oauthStateKey s)) := by
  have hcb : ∀ (r : CallbackOut),
      r = github_callback (some code) (some s) none states kv ghUser resolve t
        sessionTok sessSt →
      r.states = states.erase s ∧ r.kv = kv := by
    intro r hr
    unfold github_callback at hr
    dsimp only at hr
    rw [if_pos hmem] at hr
    cases ghUser with
    | none =>
      subst hr
      exact ⟨rfl, rfl⟩
    | some gu =>
      rcases resolve with ⟨r1, r2⟩
      cases r1 with
      | none =>
        cases r2 <;> (subst hr; exact ⟨rfl, rfl⟩)
      | some ud =>
        cases r2 <;> (subst hr; exact ⟨rfl, rfl⟩)
  have hget : rget t' (store_oauth_state t kv s).2 (oauthStateKey s) = some "1" := by
    unfold store_oauth_state rset rget
    dsimp only
    rw [rgetEntry_cons_self]
    simp [liveAt, hfresh]
  refine ⟨rfl, ?_, (hcb _ rfl).1, (hcb _ rfl).2, rfl, hget, ?_⟩
  · unfold github_auth
    by_cases h : states.contains state = true
    · rw [if_pos h]
      exact h
    · rw [if_neg h]
      simp
  · unfold verify_oauth_state
    rw [hget]
    rfl

theorem c2_oauth_state_in_process_map_witness :
    (github_callback (some "c") (some "s0") none ["s0"] [] none (none, none) 0
      "sess" []).states = List.erase ["s0"] "s0"
    ∧ rget 5 (store_oauth_state 0 [] "s0").2 (oauthStateKey "s0") = some "1" :=
  let h := c2_oauth_state_in_process_map "sX" "s0" "c" "sess" ["s0"] [] none
    (none, none) 0 5 [] (by decide) (by decide)
  ⟨h.2.2.1, h.2.2.2.2.2.1⟩

/-- Claim C8: a callback whose state parameter is not in the state map —
never issued or already consumed — is rejected with a 400 before the token
exchange: nothing is exchanged, no session is created, no cookie is set,
and the session store, state map and key-value store are unchanged. -/
theorem c8_callback_rejects_unknown_state
    (code error : Option String) (s sessionTok : String) (states : List String)
    (kv : Redis String) (ghUser : Option GithubUser)
    (resolve : Option UserData × Option String) (t : Nat) (sessSt : Redis SessionData)
    (hmem : states.contains s = false) :
    (github_callback code (some s) error states kv ghUser resolve t
        sessionTok sessSt).status = 400
    ∧ (github_callback code (some s) error states kv ghUser resolve t
        sessionTok sessSt).exchanged = false
    ∧ (github_callback code (some s) error states kv ghUser resolve t
        sessionTok sessSt).sessionCreated = false
    ∧ (github_callback code (some s) error states kv ghUser resolve t
        sessionTok sessSt).cookieSet = false
    ∧ (github_callback code (some s) error states kv ghUser resolve t
        sessionTok sessSt).sessSt = sessSt
    ∧ (github_callback code (some s) error states kv ghUser resolve t
        sessionTok sessSt).states = states := by
  cases error with
  | some e => exact ⟨rfl, rfl, rfl, rfl, rfl, rfl⟩
  | none =>
    cases code with
    | none => exact ⟨rfl, rfl, rfl, rfl, rfl, rfl⟩
    | some c =>
      unfold github_callback
      dsimp only
      rw [if_neg (by intro hcon; rw [hmem] at hcon; simp at hcon)]
      exact ⟨rfl, rfl, rfl, rfl, rfl, rfl⟩

theorem c8_callback_rejects_unknown_state_witness :
    (github_callback (some "c") (some "forged") none ["other"] [] none (none, none) 0
      "sess" []).status = 400
    ∧ (github_callback (some "c") (some "forged") none ["other"] [] none (none, none) 0
      "sess" []).sessionCreated = false :=
  let h := c8_callback_rejects_unknown_state (some "c") none "forged" "sess" ["other"]
    [] none (none, none) 0 [] (by decide)
  ⟨h.1, h.2.2.1⟩

/-- Claim C9: when the profile has no public email, the flow takes the
first entry of the provider email list marked primary-and-verified; if no
such entry exists, the first verified entry; and if no entry is verified
the whole flow fails — `complete_github_auth` yields no user and the
callback then returns a 500 with no session and no cookie. -/
theorem c9_email_resolution_policy
    (tk code s sessionTok : String) (p : Profile) (l : List EmailInfo)
    (i j : EmailInfo) (states : List String) (kv : Redis String)
    (resolve : Option UserData × Option String) (t : Nat) (sessSt : Redis SessionData)
    (hpe : p.email = none)
    (hmem : states.contains s = true) :
    (l.find? (fun x => x.primary && x.verified) = some i →
      complete_github_auth (some tk) (some p) (some l) = some (githubUserOf p i.email))
    ∧ ((∀ x ∈ l, ¬(x.primary = true ∧ x.verified = true)) →
        l.find? (fun x => x.verified) = some j →
        complete_github_auth (some tk) (some p) (some l) = some (githubUserOf p j.email))
    ∧ ((∀ x ∈ l, x.verified = false) →
        complete_github_auth (some tk) (some p) (some l) = none
        ∧ (github_callback (some code) (some s) none states kv
            (complete_github_auth (some tk) (some p) (some l)) resolve t
            sessionTok sessSt).status = 500
        ∧ (github_callback (some code) (some s) none states kv
            (complete_github_auth (some tk) (some p) (some l)) resolve t
            sessionTok sessSt).sessionCreated = false
        ∧ (github_callback (some code) (some s) none states kv
            (complete_github_auth (some tk) (some p) (some l)) resolve t
            sessionTok sessSt).cookieSet = false) := by
  refine ⟨?_, ?_, ?_⟩
  · intro h
    unfold complete_github_auth
    dsimp only
    rw [hpe]
    dsimp only
    unfold get_github_primary_email
    rw [h]
  · intro hno h
    have hn : l.find? (fun x => x.primary && x.verified) = none := by
      rw [List.find?_eq_none]
      intro x hx
      simp only [Bool.and_eq_true]
      exact fun hc => hno x hx ⟨hc.1, hc.2⟩
    unfold complete_github_auth
    dsimp only
    rw [hpe]
    dsimp only
    unfold get_github_primary_email
    rw [hn, h]
  · intro hnv
    have hn1 : l.find? (fun x => x.primary && x.verified) = none := by
      rw [List.find?_eq_none]
      intro x hx
      simp [hnv x hx]
    have hn2 : l.find? (fun x => x.verified) = none := by
      rw [List.find?_eq_none]
      intro x hx
      simp [hnv x hx]
    have hc : complete_github_auth (some tk) (some p) (some l) = none := by
      unfold complete_github_auth
      dsimp only
      rw [hpe]
      dsimp only
      unfold get_github_primary_email
      rw [hn1, hn2]
    refine ⟨hc, ?_, ?_, ?_⟩
    all_goals
      rw [hc]
      unfold github_callback
      dsimp only
      rw [if_pos hmem]

theorem c9_email_resolution_policy_witness :
    complete_github_auth (some "tk")
        (some ⟨none, some "Ada", "ada", 7, none⟩)
        (some [⟨"a@x", false, true⟩, ⟨"b@x", true, true⟩])
      = some (githubUserOf ⟨none, some "Ada", "ada", 7, none⟩ "b@x") :=
  (c9_email_resolution_policy "tk" "c" "s0" "sess" ⟨none, some "Ada", "ada", 7, none⟩
    [⟨"a@x", false, true⟩, ⟨"b@x", true, true⟩] ⟨"b@x", true, true⟩ ⟨"b@x", true, true⟩
    ["s0"] [] (none, none) 0 [] rfl (by decide)).1 (by decide)

end Orizon
